import Mathlib

/-!
Verification of the cycle-data aggregation core of `src/PickAssistant.py`.

The embedding below translates, line by line, the parts of the script that the
claims are about:

* `get_json` (lines 138-165): the S3 fetch-and-parse helper, whose `try/except`
  swallows every exception and returns `None`;
* the cycle walk and retry loop inside `run_pick_assistant` (lines 318-369):
  the `while not isDone` outer loop, the `while True` inner loop with its
  `if AnnotationData is None and StowData is None: break` guard, and the
  classification of each cycle into `StowedItems` / `AttemptedStows`;
* the report stage (lines 380-391 and 402-403): the `itemss` / `bitemss`
  sort by the key `x[0][-1] + x[0][-2]` and the missing-cycle warning.

Machine loops are modelled with explicit fuel: a `none` result means the loop
was still running when the fuel ran out, so a result that is `none` for every
fuel models non-termination.  The Bin Grid Mapper of spec section 4.4 has no
counterpart anywhere in the source; it is modelled from the spec's own words
(and marked as such) for claim C5.
-/

namespace PickAssistant

/-- A parsed JSON scalar as the script reads them: the cycle records it
consumes are flat objects whose values are strings, booleans or null. -/
inductive JVal where
  | jnull : JVal
  | jbool : Bool → JVal
  | jstr : String → JVal
  deriving DecidableEq, Repr

/-- A parsed JSON object (a Python dict): association list of fields. -/
abbrev JDict := List (String × JVal)

/-- Python truthiness of a JSON scalar: `None` is falsy, a bool is itself,
a string is truthy iff non-empty. -/
def JVal.truthy : JVal → Bool
  | .jnull => false
  | .jbool b => b
  | .jstr s => !s.isEmpty

/-- Python truthiness of an optional dict (`if StowData:`): `None` is falsy,
a dict is truthy iff non-empty. -/
def dictTruthy : Option JDict → Bool
  | none => false
  | some d => !d.isEmpty

/-- Python `dict.get(k)`: the value at key `k`, or `None` when absent. -/
def dictGet (d : JDict) (k : String) : Option JVal := d.lookup k

/-- Truthiness of `X.get(k)` applied to an optional dict, combined with the
short-circuit of `X and X.get(k)`: falsy when `X` is `None`, when the key is
absent, and when the value is falsy. -/
def optGetTruthy (o : Option JDict) (k : String) : Bool :=
  match o with
  | none => false
  | some d =>
    match dictGet d k with
    | none => false
    | some v => v.truthy

/-- Outcome of the `boto3` `get_object` call inside `get_json`: the object's
body as a string, a `NoSuchKey` error, or any other error (connectivity,
credentials, ...). -/
inductive S3Fetch where
  | found : String → S3Fetch
  | noSuchKey : S3Fetch
  | otherError : S3Fetch
  deriving DecidableEq, Repr

/-- The Python exceptions that can escape the body of `get_json`. -/
inductive PyExc where
  | noSuchKey : PyExc
  | jsonDecodeError : PyExc
  | other : PyExc
  deriving DecidableEq, Repr

/-- The `try` body of `get_json` (lines 148-157) before the `except` clause:
fetch the object, then `json.loads` it (modelled by the decoder parameter
`dec`, where `dec body = none` is a `JSONDecodeError`).  Each failure raises. -/
def get_json_body (dec : String → Option JDict) : S3Fetch → Except PyExc JDict
  | .found body =>
    match dec body with
    | some d => .ok d
    | none => .error .jsonDecodeError
  | .noSuchKey => .error .noSuchKey
  | .otherError => .error .other

/-- Lines 138-165: `get_json` runs the body and catches every exception
(`except Exception`), logging and returning `None` in all failure cases. -/
def get_json (dec : String → Option JDict) (fetch : S3Fetch) : Option JDict :=
  match fetch with
  | .found body =>
    match dec body with
    | some d => some d
    | none => none
  | .noSuchKey => none
  | .otherError => none

/-- The values the loop body stores for one classified cycle (lines 342-352):
the results of `StowData.get` on the three fields, each possibly `None`. -/
structure StowEntry where
  itemFcsku : Option JVal
  binId : Option JVal
  binScannableId : Option JVal
  deriving DecidableEq, Repr

/-- Build one stored entry from the cycle's stow dict, as lines 343-345 do. -/
def mkEntry (d : JDict) : StowEntry :=
  ⟨dictGet d "itemFcsku", dictGet d "binId", dictGet d "binScannableId"⟩

/-- The mutable state of one pass of the inner `while True` loop: the cycle
index `i`, the two keyed collections (keyed by the cycle index, since the
Python key is the string `'/cycle_' + str(i)` and `i` strictly increases
within a pass, insertion order is kept by a list), and the `cycles` counter. -/
structure WalkState where
  i : Nat
  StowedItems : List (Nat × StowEntry)
  AttemptedStows : List (Nat × StowEntry)
  cycles : Nat
  deriving DecidableEq, Repr

/-- Lines 320-324: each pass starts with `i = 1`, empty dicts, `cycles = 0`. -/
def initWalkState : WalkState := ⟨1, [], [], 0⟩

/-- Lines 337-355, the body of the inner loop after the break guard:
if `StowData` is truthy, `cycles += 1`; then if `StowData.get("binId")` is
truthy, classify by `AnnotationData and AnnotationData.get("isStowedItemInBin")`
into `StowedItems` or `AttemptedStows`; otherwise only log; finally `i += 1`. -/
def walkStep (st : WalkState) (AnnotationData StowData : Option JDict) : WalkState :=
  if dictTruthy StowData then
    let st1 : WalkState := { st with cycles := st.cycles + 1 }
    if optGetTruthy StowData "binId" then
      if dictTruthy AnnotationData && optGetTruthy AnnotationData "isStowedItemInBin" then
        { st1 with
          StowedItems := st1.StowedItems ++ [(st.i, mkEntry (StowData.getD []))]
          i := st.i + 1 }
      else
        { st1 with
          AttemptedStows := st1.AttemptedStows ++ [(st.i, mkEntry (StowData.getD []))]
          i := st.i + 1 }
    else
      { st1 with i := st.i + 1 }
  else
    { st with i := st.i + 1 }

/-- Lines 327-355, the inner `while True` loop: fetch the annotation and the
stow record for index `i`; break iff both are `None`; otherwise run the body
and continue.  `fuel` bounds the number of iterations we unfold; `none` means
the loop was still running. -/
def walkAux (fetchAnnot fetchStow : Nat → Option JDict) :
    Nat → WalkState → Option WalkState
  | 0, _ => none
  | fuel + 1, st =>
    let AnnotationData := fetchAnnot st.i
    let StowData := fetchStow st.i
    if AnnotationData = none ∧ StowData = none then some st
    else walkAux fetchAnnot fetchStow fuel (walkStep st AnnotationData StowData)

/-- One full pass of the Cycle Walker, from the fresh state of lines 320-324. -/
def walk (fetchAnnot fetchStow : Nat → Option JDict) (fuel : Nat) : Option WalkState :=
  walkAux fetchAnnot fetchStow fuel initWalkState

/-- Lines 318-364, the outer `while not isDone` retry loop: run a pass; if
`cycles >= TrueCycleCount` the run is done with that pass's state; otherwise
sleep one second and re-run the walk from scratch.  The fetch families take
the pass number first, so that data may change between passes.  `retryFuel`
bounds the number of passes we unfold; `none` means the loop was still
running (or an inner pass was). -/
def retryLoop (fetchAnnot fetchStow : Nat → Nat → Option JDict)
    (TrueCycleCount walkFuel : Nat) : Nat → Nat → Option WalkState
  | 0, _ => none
  | retryFuel + 1, pass =>
    match walk (fetchAnnot pass) (fetchStow pass) walkFuel with
    | none => none
    | some st =>
      if TrueCycleCount ≤ st.cycles then some st
      else retryLoop fetchAnnot fetchStow TrueCycleCount walkFuel retryFuel (pass + 1)

/-- Lines 402-403: after the loop, if `TrueCycleCount > cycles`, print the
missing-data warning naming the exact deficit. -/
def missingCycleWarning (TrueCycleCount cycles : Nat) : Option String :=
  if cycles < TrueCycleCount then
    some ("There are " ++ toString (TrueCycleCount - cycles) ++ " cycles unaccounted for.")
  else none

/-- The run as the claims see it: the retry loop composed (on completion) with
the report stage's missing-cycle warning, over raw S3 outcomes put through
`get_json`.  The Python report also prints the grid and lists; the warning is
the part the claims constrain. -/
def runModel (dec : String → Option JDict) (rawAnnot rawStow : Nat → Nat → S3Fetch)
    (TrueCycleCount walkFuel retryFuel : Nat) : Option (WalkState × Option String) :=
  match retryLoop (fun p j => get_json dec (rawAnnot p j))
      (fun p j => get_json dec (rawStow p j)) TrueCycleCount walkFuel retryFuel 0 with
  | none => none
  | some st => some (st, missingCycleWarning TrueCycleCount st.cycles)

/-- Line 383 and 389, the sort key `lambda x: x[0][-1] + x[0][-2]` where
`x[0]` is the binId: the string made of the last character followed by the
second-to-last.  For a binId of length at least two these are exactly the
first two characters of the reversed string (Python raises on shorter input;
`take` is the total extension, irrelevant to the claims). -/
def sortKeyOf (binId : String) : List Char := binId.data.reverse.take 2

/-- Python string comparison `<`/`==` combined into the lexicographic `<=`
that a stable ascending sort by a string key realizes: code-point order,
shorter prefix first. -/
def pyStrLe : List Char → List Char → Bool
  | [], _ => true
  | _ :: _, [] => false
  | a :: as, b :: bs => if a < b then true else if a = b then pyStrLe as bs else false

/-- Comparison of two items `[binId, itemFcsku]` by the line-383 key. -/
def itemLe (x y : String × String) : Bool := pyStrLe (sortKeyOf x.1) (sortKeyOf y.1)

/-- Lines 383 and 389: `itemss.sort(key=lambda x: x[0][-1] + x[0][-2])`.
Python's sort is the stable ascending sort by the key, which `mergeSort`
with the key's lexicographic `<=` computes. -/
def sortItems (l : List (String × String)) : List (String × String) :=
  l.mergeSort itemLe

/-- Modelled from the spec: the Bin Grid Mapper of spec section 4.4 is
missing from `src/` (no grid construction or rendering exists in the source).
Per the spec, an item whose binId ends in `<columnDigit><rowLetter>` is
placed at `row = 13 - (rowLetter - 'a')`, `col = columnDigit`. -/
def gridPlace (rowLetter columnDigit : Char) : Nat × Nat :=
  (13 - (rowLetter.toNat - Char.toNat 'a'), columnDigit.toNat - Char.toNat '0')

/-- Modelled from the spec: re-derivation of the two-character bin suffix from
a grid coordinate, inverting the placement rule of spec section 4.4
(`row = 13 - (rowLetter - 'a')`, `col = columnDigit`). -/
def gridUnplace (cell : Nat × Nat) : Char × Char :=
  (Char.ofNat (Char.toNat 'a' + (13 - cell.1)), Char.ofNat (Char.toNat '0' + cell.2))

/-! Concrete record data used by counterexamples and witnesses. -/

/-- StowResult fetches for the C1 counterexample: present at index 1 only. -/
def c1fs : Nat → Option JDict := fun j =>
  if j = 1 then some [("binId", JVal.jstr "1a")] else none

/-- Annotation fetches for the C1 counterexample: present at index 2 only,
exactly where the StowResult is first absent. -/
def c1fa : Nat → Option JDict := fun j =>
  if j = 2 then some [("isStowedItemInBin", JVal.jbool false)] else none

/-- Decoder for the C2 scenario: the body `"ok1"` parses to a well-formed
stow record; every other body (in particular `"garbage"`) fails to decode,
i.e. raises `JSONDecodeError` inside `get_json`. -/
def decEx : String → Option JDict := fun s =>
  if s = "ok1" then
    some [("binId", JVal.jstr "1a"), ("itemFcsku", JVal.jstr "I1"),
      ("binScannableId", JVal.jstr "S1")]
  else none

/-- Raw stow objects for the C2 counterexample: valid at cycles 1 and 3,
malformed (undecodable) at cycle 2. -/
def c2RawStow : Nat → Nat → S3Fetch := fun _ j =>
  if j = 1 then .found "ok1" else if j = 2 then .found "garbage"
  else if j = 3 then .found "ok1" else .noSuchKey

/-- Raw annotation objects for the C2 counterexample: all absent. -/
def c2RawAnnot : Nat → Nat → S3Fetch := fun _ _ => .noSuchKey

/-- StowResult fetches for the C3 counterexample: cycle 1 present without a
binId field, cycle 2 present with one, nothing afterwards. -/
def c3Stow : Nat → Option JDict := fun j =>
  if j = 1 then some [("itemFcsku", JVal.jstr "A")]
  else if j = 2 then
    some [("itemFcsku", JVal.jstr "B"), ("binId", JVal.jstr "3a"),
      ("binScannableId", JVal.jstr "SB")]
  else none

/-- Annotation fetches for the C3 counterexample: confirming at cycle 2. -/
def c3Annot : Nat → Option JDict := fun j =>
  if j = 2 then some [("isStowedItemInBin", JVal.jbool true)] else none

/-- Pass-dependent annotation data for the C9 witness: nothing on pass 0,
a confirming annotation at cycle 1 from pass 1 on. -/
def c9Annot : Nat → Nat → Option JDict := fun p j =>
  if 1 ≤ p ∧ j = 1 then some [("isStowedItemInBin", JVal.jbool true)] else none

/-- Pass-dependent stow data for the C9 witness: nothing on pass 0, a full
stow record at cycle 1 from pass 1 on. -/
def c9Stow : Nat → Nat → Option JDict := fun p j =>
  if 1 ≤ p ∧ j = 1 then
    some [("binId", JVal.jstr "3a"), ("itemFcsku", JVal.jstr "I3"),
      ("binScannableId", JVal.jstr "S3")]
  else none

/-- StowResult fetches for the C1 amended witness: truthy records at indices
1 and 2, nothing afterwards. -/
def c1wStow : Nat → Option JDict := fun j =>
  if j = 1 ∨ j = 2 then some [("binId", JVal.jstr "2a")] else none

/-- Annotation fetches for the C1 amended witness: always absent. -/
def c1wAnnot : Nat → Option JDict := fun _ => none

/-! Helper lemmas about the loop body. -/

theorem walkStep_i (st : WalkState) (a s : Option JDict) :
    (walkStep st a s).i = st.i + 1 := by
  unfold walkStep
  split
  · split
    · split <;> rfl
    · rfl
  · rfl

theorem walkStep_cycles_of_truthy (st : WalkState) (a s : Option JDict)
    (h : dictTruthy s = true) : (walkStep st a s).cycles = st.cycles + 1 := by
  unfold walkStep
  rw [h]
  simp only [if_true]
  split
  · split <;> rfl
  · rfl

theorem dictTruthy_ne_none {s : Option JDict} (h : dictTruthy s = true) : s ≠ none := by
  intro hn
  rw [hn] at h
  exact Bool.false_ne_true h

/-- Python `X and X.get(k)` is truthy exactly when `X.get(k)` is: a successful
lookup forces the dict to be non-empty, hence truthy. -/
theorem dictTruthy_and_optGetTruthy (o : Option JDict) (k : String) :
    (dictTruthy o && optGetTruthy o k) = optGetTruthy o k := by
  cases o with
  | none => rfl
  | some d =>
    cases d with
    | nil => rfl
    | cons x xs => simp [dictTruthy]

/-- The inner loop, run over a dense block: if the stow fetch is truthy at the
`m` indices starting at the current one and both fetches are absent right
after the block, the loop stops exactly there, the index advances by `m` and
the `cycles` counter increases by `m`. -/
theorem walkAux_dense (fetchAnnot fetchStow : Nat → Option JDict) :
    ∀ (m : Nat) (st : WalkState) (fuel : Nat),
      (∀ j, st.i ≤ j → j < st.i + m → dictTruthy (fetchStow j) = true) →
      fetchAnnot (st.i + m) = none → fetchStow (st.i + m) = none →
      m + 1 ≤ fuel →
      ∃ st', walkAux fetchAnnot fetchStow fuel st = some st' ∧
        st'.i = st.i + m ∧ st'.cycles = st.cycles + m := by
  intro m
  induction m with
  | zero =>
    intro st fuel _ hA hS hfuel
    match fuel, hfuel with
    | fuel + 1, _ =>
      refine ⟨st, ?_, by omega, by omega⟩
      simp only [walkAux]
      rw [if_pos ⟨by simpa using hA, by simpa using hS⟩]
  | succ m ih =>
    intro st fuel hpres hA hS hfuel
    match fuel, hfuel with
    | fuel + 1, hfuel =>
      have htr : dictTruthy (fetchStow st.i) = true :=
        hpres st.i (Nat.le_refl _) (by omega)
      have hguard : ¬ (fetchAnnot st.i = none ∧ fetchStow st.i = none) := by
        intro hc
        exact dictTruthy_ne_none htr hc.2
      simp only [walkAux]
      rw [if_neg hguard]
      set st2 := walkStep st (fetchAnnot st.i) (fetchStow st.i) with hst2
      have hi2 : st2.i = st.i + 1 := walkStep_i _ _ _
      have hc2 : st2.cycles = st.cycles + 1 := walkStep_cycles_of_truthy _ _ _ htr
      have hpres2 : ∀ j, st2.i ≤ j → j < st2.i + m → dictTruthy (fetchStow j) = true := by
        intro j hj1 hj2
        exact hpres j (by omega) (by omega)
      have hA2 : fetchAnnot (st2.i + m) = none := by
        rw [hi2]; rw [show st.i + 1 + m = st.i + (m + 1) by omega]; exact hA
      have hS2 : fetchStow (st2.i + m) = none := by
        rw [hi2]; rw [show st.i + 1 + m = st.i + (m + 1) by omega]; exact hS
      obtain ⟨st', h1, h2, h3⟩ := ih st2 fuel hpres2 hA2 hS2 (by omega)
      exact ⟨st', h1, by omega, by omega⟩

/-- Any pass of the retry loop that returns did so because some single pass
reached the expected count; the returned state is exactly that pass's walk
result, started from the fresh initial state. -/
theorem retryLoop_result (fetchAnnot fetchStow : Nat → Nat → Option JDict)
    (TrueCycleCount walkFuel : Nat) :
    ∀ (retryFuel pass : Nat) (st : WalkState),
      retryLoop fetchAnnot fetchStow TrueCycleCount walkFuel retryFuel pass = some st →
      TrueCycleCount ≤ st.cycles ∧
        ∃ k, pass ≤ k ∧ walk (fetchAnnot k) (fetchStow k) walkFuel = some st := by
  intro retryFuel
  induction retryFuel with
  | zero => intro pass st h; exact absurd h (by simp [retryLoop])
  | succ rf ih =>
    intro pass st h
    rw [retryLoop] at h
    cases hw : walk (fetchAnnot pass) (fetchStow pass) walkFuel with
    | none => rw [hw] at h; exact absurd h (by simp)
    | some st0 =>
      rw [hw] at h
      dsimp only at h
      by_cases hdone : TrueCycleCount ≤ st0.cycles
      · rw [if_pos hdone] at h
        obtain rfl : st0 = st := by simpa using h
        exact ⟨hdone, pass, Nat.le_refl _, hw⟩
      · rw [if_neg hdone] at h
        obtain ⟨h1, k, hk, hwk⟩ := ih (pass + 1) st h
        exact ⟨h1, k, by omega, hwk⟩

/-- When every pass's walk falls short of the expected count, the retry loop
never finishes, whatever fuel it is given. -/
theorem retryLoop_incomplete_forever (fetchAnnot fetchStow : Nat → Nat → Option JDict)
    (TrueCycleCount walkFuel : Nat)
    (h : ∀ pass st, walk (fetchAnnot pass) (fetchStow pass) walkFuel = some st →
      st.cycles < TrueCycleCount) :
    ∀ retryFuel pass,
      retryLoop fetchAnnot fetchStow TrueCycleCount walkFuel retryFuel pass = none := by
  intro retryFuel
  induction retryFuel with
  | zero => intro pass; rfl
  | succ rf ih =>
    intro pass
    rw [retryLoop]
    cases hw : walk (fetchAnnot pass) (fetchStow pass) walkFuel with
    | none => rfl
    | some st0 =>
      dsimp only
      rw [if_neg (by exact Nat.not_le.mpr (h pass st0 hw))]
      exact ih (pass + 1)

/-! Helper lemmas for the sort comparator of lines 383 and 389. -/

theorem pyStrLe_total : ∀ a b : List Char, (pyStrLe a b || pyStrLe b a) = true := by
  intro a
  induction a with
  | nil => intro b; simp [pyStrLe]
  | cons x xs ih =>
    intro b
    cases b with
    | nil => simp [pyStrLe]
    | cons y ys =>
      by_cases hxy : x < y
      · simp [pyStrLe, hxy]
      · by_cases hyx : y < x
        · have hne : ¬ x = y := by rintro rfl; exact lt_irrefl _ hyx
          simp [pyStrLe, hxy, hyx, hne]
        · have hx : x = y := le_antisymm (not_lt.mp hyx) (not_lt.mp hxy)
          subst hx
          simp [pyStrLe, hxy, ih ys]

theorem pyStrLe_trans :
    ∀ a b c : List Char, pyStrLe a b = true → pyStrLe b c = true → pyStrLe a c = true := by
  intro a
  induction a with
  | nil => intro b c _ _; rfl
  | cons x xs ih =>
    intro b c h1 h2
    cases b with
    | nil => simp [pyStrLe] at h1
    | cons y ys =>
      cases c with
      | nil => simp [pyStrLe] at h2
      | cons z zs =>
        by_cases hxy : x < y
        · by_cases hyz : y < z
          · simp [pyStrLe, lt_trans hxy hyz]
          · by_cases hyz2 : y = z
            · subst hyz2; simp [pyStrLe, hxy]
            · simp [pyStrLe, hyz, hyz2] at h2
        · by_cases hxy2 : x = y
          · subst hxy2
            by_cases hxz : x < z
            · simp [pyStrLe, hxz]
            · by_cases hxz2 : x = z
              · subst hxz2
                simp only [pyStrLe, if_neg hxy, if_pos rfl] at h1 ⊢
                simp only [pyStrLe, if_neg hxy, if_pos rfl] at h2
                exact ih ys zs h1 h2
              · simp [pyStrLe, hxz, hxz2] at h2
          · simp [pyStrLe, hxy, hxy2] at h1

theorem itemLe_trans (a b c : String × String)
    (h1 : itemLe a b = true) (h2 : itemLe b c = true) : itemLe a c = true :=
  pyStrLe_trans _ _ _ h1 h2

theorem itemLe_total (a b : String × String) : (itemLe a b || itemLe b a) = true :=
  pyStrLe_total _ _

/-! The claims. -/

/-- C1, counterexample.  The claim says the walk stops at the first index
whose StowResult fetch is absent, regardless of whether an Annotation exists
there.  Concretely: StowResult present for index 1 only (`n = 1`), absent at
index 2, but an Annotation record exists at index 2.  The claim then demands
termination right after probing index 2 (final index 2, no higher probe); the
code's guard (line 334) breaks only when BOTH fetches are `None`, so the walk
goes on and stops at index 3 instead. -/
theorem c1_counterexample :
    walk c1fa c1fs 10 =
      some ⟨3, [], [(1, ⟨none, some (JVal.jstr "1a"), none⟩)], 1⟩ ∧
    (walk c1fa c1fs 10).map WalkState.i ≠ some 2 := by
  constructor
  · decide
  · decide

/-- C1, amended: the Cycle Walker stops exactly at the first cycle index at
which BOTH the StowResult and the Annotation fetch return Absent.  If
StowResult records are present (truthy) for indices 1..n and both fetches are
absent at n+1, the walk terminates with final index n+1 (so no higher index
is probed) and cyclesObserved = n, regardless of the expected cycle count
(the walk never consults it) and independent of annotation data below n+1. -/
theorem c1_amended_walk_stops_at_double_absent
    (fetchAnnot fetchStow : Nat → Option JDict) (n : Nat)
    (hpres : ∀ j, 1 ≤ j → j ≤ n → dictTruthy (fetchStow j) = true)
    (hstow : fetchStow (n + 1) = none) (hannot : fetchAnnot (n + 1) = none)
    (fuel : Nat) (hfuel : n + 1 ≤ fuel) :
    ∃ st, walk fetchAnnot fetchStow fuel = some st ∧ st.i = n + 1 ∧ st.cycles = n := by
  have hshift : initWalkState.i + n = n + 1 := by
    show 1 + n = n + 1
    omega
  have h := walkAux_dense fetchAnnot fetchStow n initWalkState fuel
    (fun j hj1 hj2 => hpres j hj1 (by
      have hj2n : j < 1 + n := hj2
      omega))
    (by rw [hshift]; exact hannot)
    (by rw [hshift]; exact hstow)
    hfuel
  obtain ⟨st, h1, h2, h3⟩ := h
  have h2n : st.i = 1 + n := h2
  have h3n : st.cycles = 0 + n := h3
  exact ⟨st, h1, by omega, by omega⟩

/-- C1, witness: the amended theorem applied to two dense cycles followed by
a doubly-absent index 3. -/
theorem c1_amended_witness :
    (∀ j, 1 ≤ j → j ≤ 2 → dictTruthy (c1wStow j) = true) ∧
    c1wStow 3 = none ∧ c1wAnnot 3 = none ∧
    ∃ st, walk c1wAnnot c1wStow 10 = some st ∧ st.i = 3 ∧ st.cycles = 2 := by
  refine ⟨?_, rfl, rfl, ?_⟩
  · intro j h1 h2
    interval_cases j <;> rfl
  · exact c1_amended_walk_stops_at_double_absent c1wAnnot c1wStow 2
      (by intro j h1 h2; interval_cases j <;> rfl) rfl rfl 10 (by omega)

/-- C2, counterexample.  Cycle 2's stow object exists but is undecodable
(Malformed); `get_json` returns `None` for it, exactly as for the absent
object of a `NoSuchKey` — so with the annotation also absent the walk's guard
reads end-of-data at index 2 and breaks.  The run then completes normally
(expected count 1 is met), reaches the report stage and emits a report
containing cycle 1 only — cycle 3's valid record is silently lost and nothing
aborts, contradicting both halves of the claim. -/
theorem c2_counterexample :
    get_json decEx (c2RawStow 0 2) = none ∧
    get_json decEx S3Fetch.noSuchKey = none ∧
    runModel decEx c2RawAnnot c2RawStow 1 10 5 =
      some (⟨2, [],
        [(1, ⟨some (JVal.jstr "I1"), some (JVal.jstr "1a"), some (JVal.jstr "S1")⟩)], 1⟩,
        none) := by
  refine ⟨rfl, rfl, by decide⟩

/-- C2, amended: a Malformed record (content present but undecodable) does
NOT abort the run.  `get_json` catches the decode error, logs it and returns
`None` (lines 158-165), which is exactly what it returns for a missing object
or any other fetch error; the Cycle Walker therefore cannot distinguish
Malformed from Absent and treats it as missing data (possibly as the
end-of-data signal), and the run continues to a report. -/
theorem c2_amended_malformed_is_absent (dec : String → Option JDict) (b : String)
    (hmal : dec b = none) :
    get_json dec (S3Fetch.found b) = none ∧
    get_json dec S3Fetch.noSuchKey = none ∧
    get_json dec S3Fetch.otherError = none := by
  simp [get_json, hmal]

/-- C2, witness: the amended theorem applied to the undecodable body of the
counterexample scenario. -/
theorem c2_amended_witness :
    decEx "garbage" = none ∧
    (get_json decEx (S3Fetch.found "garbage") = none ∧
      get_json decEx S3Fetch.noSuchKey = none ∧
      get_json decEx S3Fetch.otherError = none) :=
  ⟨rfl, c2_amended_malformed_is_absent decEx "garbage" rfl⟩

/-- C3, counterexample.  Cycle 1 has a present StowResult without a binId,
cycle 2 a fully classified one.  The claim says the no-binId cycle does not
count toward cyclesObserved, which would leave cyclesObserved = 1; but line
339 increments `cycles` before the binId check (line 340), so the code ends
with cyclesObserved = 2 (while correctly excluding cycle 1 from both
collections and classifying cycle 2). -/
theorem c3_counterexample :
    walk c3Annot c3Stow 10 =
      some ⟨3,
        [(2, ⟨some (JVal.jstr "B"), some (JVal.jstr "3a"), some (JVal.jstr "SB")⟩)],
        [], 2⟩ ∧
    (walk c3Annot c3Stow 10).map WalkState.cycles ≠ some 1 := by
  constructor
  · decide
  · decide

/-- C3, amended: a cycle whose StowResult is present (truthy) but whose binId
is absent or empty is excluded from both the confirmed and the attempted
collections and the walk continues to the next index — but the cycle DOES
count toward cyclesObserved: the loop body increments `cycles` for every
truthy StowResult before checking binId, so the counter advances and
subsequent cycles are otherwise unaffected. -/
theorem c3_amended_no_binid_counts (st : WalkState) (AnnotationData StowData : Option JDict)
    (htruthy : dictTruthy StowData = true)
    (hnobin : optGetTruthy StowData "binId" = false) :
    walkStep st AnnotationData StowData =
      { st with cycles := st.cycles + 1, i := st.i + 1 } := by
  simp [walkStep, htruthy, hnobin]

/-- C3, witness: the amended theorem applied to a record with no binId field;
only the counter and the index change. -/
theorem c3_amended_witness :
    dictTruthy (some [("itemFcsku", JVal.jstr "A")]) = true ∧
    optGetTruthy (some [("itemFcsku", JVal.jstr "A")]) "binId" = false ∧
    walkStep initWalkState none (some [("itemFcsku", JVal.jstr "A")]) =
      ⟨2, [], [], 1⟩ :=
  ⟨rfl, rfl, c3_amended_no_binid_counts initWalkState none _ rfl rfl⟩

/-- C4: the claim is right and the code wrong.  The `while not isDone` retry
loop (lines 318-364) has no retry bound and no in-code cancellation: when the
data never arrives (here: every fetch absent on every pass, expected count 1)
no amount of fuel makes the loop finish — it re-walks and sleeps forever.
This evaluates the code at the failing input for every number of passes. -/
theorem c4_retry_loop_unbounded :
    ∀ retryFuel pass,
      retryLoop (fun _ _ => none) (fun _ _ => none) 1 10 retryFuel pass = none := by
  apply retryLoop_incomplete_forever
  intro pass st hw
  have hw2 : walk (fun _ => (none : Option JDict)) (fun _ => (none : Option JDict)) 10 =
      some st := hw
  rw [show walk (fun _ => (none : Option JDict)) (fun _ => (none : Option JDict)) 10 =
    some initWalkState from by decide] at hw2
  cases hw2
  decide

/-- Character order transfers to the code-point value. -/
theorem char_toNat_le {a b : Char} (h : a ≤ b) : a.toNat ≤ b.toNat := by
  simpa [Char.le_def, UInt32.le_def, BitVec.le_def, Char.toNat, UInt32.toNat] using h

/-- C5: modelled from the spec (the Bin Grid Mapper is absent from `src/`).
For every row letter in `a..m` and column digit in `1..4`, placing at
`row = 13 - (rowLetter - a)`, `col = columnDigit` and re-deriving the
letter and digit from that coordinate returns the original suffix. -/
theorem c5_grid_roundtrip (r c : Char)
    (h1 : 'a' ≤ r) (h2 : r ≤ 'm') (h3 : '1' ≤ c) (h4 : c ≤ '4') :
    gridUnplace (gridPlace r c) = (r, c) := by
  have b1 : 97 ≤ r.toNat := by simpa using char_toNat_le h1
  have b2 : r.toNat ≤ 109 := by simpa using char_toNat_le h2
  have b3 : 49 ≤ c.toNat := by simpa using char_toNat_le h3
  have b4 : c.toNat ≤ 52 := by simpa using char_toNat_le h4
  unfold gridPlace gridUnplace
  have ha : Char.toNat 'a' = 97 := by decide
  have h0 : Char.toNat '0' = 48 := by decide
  have e1 : Char.toNat 'a' + (13 - (13 - (r.toNat - Char.toNat 'a'))) = r.toNat := by
    rw [ha]; omega
  have e2 : Char.toNat '0' + (c.toNat - Char.toNat '0') = c.toNat := by
    rw [h0]; omega
  simp only [e1, e2, Char.ofNat_toNat]

/-- C5, witness: the round trip at the concrete bin suffix `"3c"`. -/
theorem c5_grid_roundtrip_witness :
    ('a' ≤ 'c' ∧ 'c' ≤ 'm' ∧ '1' ≤ '3' ∧ '3' ≤ '4') ∧
    gridUnplace (gridPlace 'c' '3') = ('c', '3') :=
  ⟨by decide, c5_grid_roundtrip 'c' '3' (by decide) (by decide) (by decide) (by decide)⟩

/-- C6: whenever the report stage runs with expectedCycleCount greater than
cyclesObserved, lines 402-403 print the missing-data warning naming the exact
deficit `expectedCycleCount - cyclesObserved`; with the expectation met, no
warning is printed. -/
theorem c6_missing_data_warning (TrueCycleCount cycles : Nat) :
    (cycles < TrueCycleCount →
      missingCycleWarning TrueCycleCount cycles =
        some ("There are " ++ toString (TrueCycleCount - cycles) ++
          " cycles unaccounted for.")) ∧
    (TrueCycleCount ≤ cycles → missingCycleWarning TrueCycleCount cycles = none) := by
  constructor
  · intro h
    simp [missingCycleWarning, h]
  · intro h
    simp [missingCycleWarning, Nat.not_lt.mpr h]

/-- C6, witness: 10 expected, 7 observed yields the spec's example text,
"3 cycles unaccounted for". -/
theorem c6_missing_data_warning_witness :
    (7 : Nat) < 10 ∧
    missingCycleWarning 10 7 = some "There are 3 cycles unaccounted for." := by
  refine ⟨by omega, ?_⟩
  have h := (c6_missing_data_warning 10 7).1 (by omega)
  exact h.trans (by decide)

/-- C7: for a cycle with a truthy StowResult and truthy binId, the outcome is
Confirmed (appended to `StowedItems`) iff the annotation is present and its
`isStowedItemInBin` flag is truthy — the code's condition
`AnnotationData and AnnotationData.get("isStowedItemInBin")` equals that flag
lookup, since a successful lookup forces the dict non-empty — and in every
other case the cycle is appended to `AttemptedStows` instead; exactly one of
the two collections receives the item, and counter and index advance. -/
theorem c7_outcome_classification (st : WalkState)
    (AnnotationData StowData : Option JDict)
    (htruthy : dictTruthy StowData = true)
    (hbin : optGetTruthy StowData "binId" = true) :
    ((dictTruthy AnnotationData && optGetTruthy AnnotationData "isStowedItemInBin") =
      optGetTruthy AnnotationData "isStowedItemInBin") ∧
    (optGetTruthy AnnotationData "isStowedItemInBin" = true →
      walkStep st AnnotationData StowData =
        { st with
          cycles := st.cycles + 1
          i := st.i + 1
          StowedItems := st.StowedItems ++ [(st.i, mkEntry (StowData.getD []))] }) ∧
    (optGetTruthy AnnotationData "isStowedItemInBin" = false →
      walkStep st AnnotationData StowData =
        { st with
          cycles := st.cycles + 1
          i := st.i + 1
          AttemptedStows := st.AttemptedStows ++ [(st.i, mkEntry (StowData.getD []))] }) := by
  refine ⟨dictTruthy_and_optGetTruthy _ _, ?_, ?_⟩
  · intro hann
    have hd : dictTruthy AnnotationData = true := by
      have h := dictTruthy_and_optGetTruthy AnnotationData "isStowedItemInBin"
      rw [hann, Bool.and_true] at h
      exact h
    simp [walkStep, htruthy, hbin, hann, hd]
  · intro hann
    simp [walkStep, htruthy, hbin, hann]

/-- C7, witness: a confirming annotation routes the item into `StowedItems`,
and an absent annotation routes the same stow into `AttemptedStows`. -/
theorem c7_outcome_classification_witness :
    (dictTruthy (some [("binId", JVal.jstr "1a")]) = true ∧
      optGetTruthy (some [("binId", JVal.jstr "1a")]) "binId" = true) ∧
    walkStep initWalkState (some [("isStowedItemInBin", JVal.jbool true)])
        (some [("binId", JVal.jstr "1a")]) =
      ⟨2, [(1, ⟨none, some (JVal.jstr "1a"), none⟩)], [], 1⟩ ∧
    walkStep initWalkState none (some [("binId", JVal.jstr "1a")]) =
      ⟨2, [], [(1, ⟨none, some (JVal.jstr "1a"), none⟩)], 1⟩ := by
  refine ⟨⟨rfl, rfl⟩, ?_, ?_⟩
  · exact ((c7_outcome_classification initWalkState
      (some [("isStowedItemInBin", JVal.jbool true)])
      (some [("binId", JVal.jstr "1a")]) rfl rfl).2.1 rfl).trans (by decide)
  · exact ((c7_outcome_classification initWalkState none
      (some [("binId", JVal.jstr "1a")]) rfl rfl).2.2 rfl).trans (by decide)

/-- C8: the stowed-items list (and likewise the attempted list) is sorted by
the composite key of line 383, `x[0][-1] + x[0][-2]`: the output is a
permutation of the input, pairwise ordered by the key comparison; on
two-character keys the comparison is exactly "row letter primary, column
digit secondary"; the key of a binId ending in `<digit><letter>` is
`[letter, digit]`; and the spec's example sorts `2b, 4a, 1a` into
`1a, 4a, 2b`. -/
theorem c8_sort_order :
    (∀ l : List (String × String), (sortItems l).Perm l) ∧
    (∀ l : List (String × String),
      List.Pairwise (fun x y => itemLe x y = true) (sortItems l)) ∧
    (∀ c1 c2 d1 d2 : Char,
      (pyStrLe [c1, c2] [d1, d2] = true) ↔ (c1 < d1 ∨ (c1 = d1 ∧ c2 ≤ d2))) ∧
    (∀ (pre : List Char) (c2 c1 : Char),
      sortKeyOf (String.mk (pre ++ [c2, c1])) = [c1, c2]) ∧
    sortItems [("2b", "z"), ("4a", "y"), ("1a", "x")] =
      [("1a", "x"), ("4a", "y"), ("2b", "z")] := by
  refine ⟨?_, ?_, ?_, ?_, ?_⟩
  · intro l
    exact List.mergeSort_perm l itemLe
  · intro l
    simpa using List.sorted_mergeSort
      (fun a b c h1 h2 => itemLe_trans a b c h1 h2)
      (fun a b => itemLe_total a b) l
  · intro c1 c2 d1 d2
    by_cases h1 : c1 < d1
    · simp [pyStrLe, h1]
    · by_cases h2 : c1 = d1
      · subst h2
        by_cases h3 : c2 < d2
        · simp [pyStrLe, h1, h3, le_of_lt h3]
        · by_cases h4 : c2 = d2
          · subst h4
            simp [pyStrLe, h1]
          · simp [pyStrLe, h1, h3, h4]
            exact lt_of_le_of_ne (not_lt.mp h3) (fun he => h4 he.symm)
      · simp [pyStrLe, h1, h2]
  · intro pre c2 c1
    simp [sortKeyOf, List.reverse_append]
  · simp +decide [sortItems, List.mergeSort, List.merge, itemLe, sortKeyOf, pyStrLe]

/-- C9: whenever the retry loop returns, its result is exactly the walk of a
single pass started from the fresh initial state (index 1, empty collections,
zero counter, lines 320-324): the final result equals the last pass alone and
never mixes records accumulated across passes. -/
theorem c9_fresh_pass_result (fetchAnnot fetchStow : Nat → Nat → Option JDict)
    (TrueCycleCount walkFuel retryFuel pass : Nat) (st : WalkState)
    (h : retryLoop fetchAnnot fetchStow TrueCycleCount walkFuel retryFuel pass = some st) :
    TrueCycleCount ≤ st.cycles ∧
      ∃ k, pass ≤ k ∧
        walkAux (fetchAnnot k) (fetchStow k) walkFuel initWalkState = some st :=
  retryLoop_result fetchAnnot fetchStow TrueCycleCount walkFuel retryFuel pass st h

/-- C9, witness: pass 0 sees no data, pass 1 sees one confirmed cycle; the
loop's result is exactly the fresh walk of pass 1 (one stowed item recorded
under cycle 1, cyclesObserved 1), with nothing carried over from pass 0. -/
theorem c9_fresh_pass_result_witness :
    retryLoop c9Annot c9Stow 1 10 5 0 =
      some ⟨2, [(1, ⟨some (JVal.jstr "I3"), some (JVal.jstr "3a"), some (JVal.jstr "S3")⟩)],
        [], 1⟩ ∧
    ((1 : Nat) ≤
        (⟨2, [(1, ⟨some (JVal.jstr "I3"), some (JVal.jstr "3a"), some (JVal.jstr "S3")⟩)],
          [], 1⟩ : WalkState).cycles ∧
      ∃ k, 0 ≤ k ∧
        walkAux (c9Annot k) (c9Stow k) 10 initWalkState =
          some ⟨2,
            [(1, ⟨some (JVal.jstr "I3"), some (JVal.jstr "3a"), some (JVal.jstr "S3")⟩)],
            [], 1⟩) :=
  ⟨by decide, c9_fresh_pass_result c9Annot c9Stow 1 10 5 0 _ (by decide)⟩

/-- C10: `get_json` is total at its interface: it equals its `try` body with
every raised exception mapped to `None` (so no exception reaches the caller),
it returns the parsed dictionary exactly when the object exists and decodes,
and a missing object, a malformed object and any other fetch error all return
the same `None` — indistinguishable to the caller. -/
theorem c10_get_json_total (dec : String → Option JDict) (f : S3Fetch) (b : String) :
    get_json dec f = (get_json_body dec f).toOption ∧
    get_json dec (S3Fetch.found b) = dec b ∧
    get_json dec S3Fetch.noSuchKey = none ∧
    get_json dec S3Fetch.otherError = none := by
  refine ⟨?_, ?_, rfl, rfl⟩
  · cases f with
    | found body => cases h : dec body <;> simp [get_json, get_json_body, h, Except.toOption]
    | noSuchKey => rfl
    | otherError => rfl
  · cases h : dec b <;> simp [get_json, h]

end PickAssistant
